import Mathlib

/-
Verification of the batch orchestration engine of the Azure snapshot
manager (src/prod/main.py).  The Python data structures are shallowly
embedded: Python dicts become association lists with first-match lookup
and in-place update, the two-level result aggregate becomes a list of
key/bucket-map pairs, and the external Azure CLI is an explicit
environment of command results.  Fallible Python code (statements that
can raise) is modelled with Except.
-/

/-- Python str.split and str.startswith are modelled over the underlying
character list so that all definitions reduce in the kernel. -/
def splitCharAux (sep : Char) : List Char → List Char → List String
  | [], cur => [String.mk cur.reverse]
  | c :: rest, cur =>
    if c = sep then String.mk cur.reverse :: splitCharAux sep rest []
    else splitCharAux sep rest (c :: cur)

/-- Python s.split(sep) for a one-character separator: always returns a
non-empty list; the empty string splits to a single empty segment. -/
def pySplit (s : String) (sep : Char) : List String :=
  splitCharAux sep s.data []

/-- Python s.startswith(p). -/
def pyStartsWith (s p : String) : Bool :=
  p.data.isPrefixOf s.data

/-- Python parts[-1] on a non-empty list (split output is never empty). -/
def pyLast (l : List String) : String :=
  l.getD (l.length - 1) ""

/-- First-match lookup with default, the behaviour of Python dict.get. -/
def lookupD {κ ν : Type} [DecidableEq κ] : List (κ × ν) → κ → ν → ν
  | [], _, d => d
  | (a, v) :: rest, k, d => if a = k then v else lookupD rest k d

/-- Python dict item assignment: replace the first matching key in place,
otherwise append the new key at the end (insertion order). -/
def setKey {κ ν : Type} [DecidableEq κ] : List (κ × ν) → κ → ν → List (κ × ν)
  | [], k, v => [(k, v)]
  | (a, w) :: rest, k, v =>
    if a = k then (k, v) :: rest else (a, w) :: setKey rest k v

/-- Python membership test k in d. -/
def hasKey {κ ν : Type} [DecidableEq κ] : List (κ × ν) → κ → Bool
  | [], _ => false
  | (a, _) :: rest, k => a = k || hasKey rest k

/-- Payload stored in a tag bucket: snapshot or VM names for success tags,
identifier/error-text pairs for failure tags. -/
inductive Payload where
  | name (s : String)
  | err (s e : String)
deriving DecidableEq, Repr

/-- Inner map of one subscription: outcome tag to ordered payload list. -/
abbrev SubAgg := List (String × List Payload)

/-- The two-level result aggregate of the delete pipeline:
subscription display name to tag-bucket map
(Python defaultdict(lambda: defaultdict(list))). -/
abbrev Aggregate := List (String × SubAgg)

/-- Bucket access results[k][t] with the defaultdict empty default. -/
def bucketOf (a : Aggregate) (k t : String) : List Payload :=
  lookupD (lookupD a k []) t []

/-- Model of results[k][t].append(p) on the nested defaultdict. -/
def appendAt (a : Aggregate) (k t : String) (p : Payload) : Aggregate :=
  let inner := lookupD a k []
  setKey a k (setKey inner t (lookupD inner t [] ++ [p]))

/-- Python inner.update(data): assign every key of data into inner,
overwriting buckets whose tag is already present. -/
def updateInner (inner data : SubAgg) : SubAgg :=
  data.foldl (fun acc p => setKey acc p.1 p.2) inner

/-- The merge of main.py lines 613-616: for every subscription of the
deletion aggregate, results[subscription].update(data). -/
def mergeResults (pre del : Aggregate) : Aggregate :=
  del.foldl (fun acc p => setKey acc p.1 (updateInner (lookupD acc p.1 []) p.2)) pre

/-- Whether the aggregate has bucket t under key k (first-match lookup). -/
def hasTag (a : Aggregate) (k t : String) : Bool :=
  hasKey (lookupD a k []) t

/-- Well-formedness mirroring Python dicts: keys are unique at both
levels.  Every aggregate the pipeline builds satisfies this. -/
def WFAgg (a : Aggregate) : Prop :=
  (a.map Prod.fst).Nodup ∧ ∀ p ∈ a, (p.2.map Prod.fst).Nodup

instance (a : Aggregate) : Decidable (WFAgg a) := by
  unfold WFAgg; infer_instance

/-- Total payload count of one inner tag-bucket map. -/
def innerTotal (l : SubAgg) : Nat :=
  (l.map (fun p => p.2.length)).sum

/-- Total payload count of an aggregate over all keys and tags. -/
def aggTotal (a : Aggregate) : Nat :=
  (a.map (fun p => innerTotal p.2)).sum

/-- The totals row of print_summary (main.py lines 506-523): the sums of
the valid, non-existent, deleted and failed bucket lengths over all
subscriptions.  Buckets with other tags are not counted. -/
def print_summary_totals (a : Aggregate) : Nat :=
  (a.map (fun kv =>
    (lookupD kv.2 "valid" []).length + (lookupD kv.2 "non-existent" []).length +
    (lookupD kv.2 "deleted" []).length + (lookupD kv.2 "failed" []).length)).sum

/-- Result of one external command attempt: stdout, stderr, exit code. -/
structure CmdAttempt where
  stdout : String
  stderr : String
  returncode : Int
deriving DecidableEq, Repr

/-- The retrying loop body of run_az_command_async (main.py lines 49-65).
The sequence of attempt outcomes for the command is the function att; i
is the current attempt index, remaining the attempts left, slept the
accumulated sleep time.  On a zero exit code the attempt result is
returned at once; on the last failed attempt the pair of empty stdout
and last stderr and exit code is returned; otherwise the loop sleeps for
delay time-units and retries. -/
def runAzRetryGo (att : Nat → CmdAttempt) (delay : Nat) :
    Nat → Nat → Nat → Option ((String × String × Int) × Nat)
  | _, 0, _ => none
  | i, rem + 1, slept =>
    let a := att i
    if a.returncode = 0 then some ((a.stdout, a.stderr, a.returncode), slept)
    else if rem = 0 then some (("", a.stderr, a.returncode), slept)
    else runAzRetryGo att delay (i + 1) rem (slept + delay)

/-- run_az_command_async: the returned value is the command result
together with the total time slept between attempts.  With max_retries
equal to zero the Python loop body never runs and the final return
statement hits unbound locals, modelled as none. -/
def run_az_command_async (att : Nat → CmdAttempt) (max_retries delay : Nat) :
    Option ((String × String × Int) × Nat) :=
  runAzRetryGo att delay 0 max_retries 0

/-- Environment of the snapshot-creation worker: the result of each az
command it issues, plus the JSON parse of the snapshot-create output
(none models a JSONDecodeError, some rid the parsed id field). -/
structure VmEnv where
  accountSet : String → CmdAttempt
  vmShowDisk : String → CmdAttempt
  vmShowRg : String → CmdAttempt
  snapshotCreate : String → String → String → CmdAttempt
  parseSnapshotId : String → Option (Option String)

/-- Observable outcome of process_vm: its return value together with the
snapshot resource id appended to snap_rid_list.txt, when any. -/
structure VmOutcome where
  result : String × String
  ridWritten : Option String
deriving DecidableEq, Repr

/-- The deterministic snapshot name of main.py line 161. -/
def snapshotNameOf (chg vm ts : String) : String :=
  "RH_" ++ chg ++ "_" ++ vm ++ "_" ++ ts

/-- The snapshot-creation worker process_vm (main.py lines 122-186).
A resource id with fewer than three slash segments raises an IndexError
in Python (parts[2]), modelled as the error case. -/
def process_vm (env : VmEnv) (resource_id vm_name chg ts : String) :
    Except String VmOutcome :=
  let parts := pySplit resource_id '/'
  if parts.length < 3 then .error "IndexError: list index out of range"
  else
    let subId := parts.getD 2 ""
    if subId = "" then .ok ⟨(vm_name, "Failed to get subscription ID"), none⟩
    else if (env.accountSet subId).returncode ≠ 0 then
      .ok ⟨(vm_name, "Failed to set subscription ID"), none⟩
    else
      let d := env.vmShowDisk resource_id
      if d.returncode ≠ 0 ∨ d.stdout = "" then
        .ok ⟨(vm_name, "Failed to get disk ID"), none⟩
      else
        let g := env.vmShowRg resource_id
        if g.returncode ≠ 0 then .ok ⟨(vm_name, "Failed to get resource group"), none⟩
        else
          let nm := snapshotNameOf chg vm_name ts
          let s := env.snapshotCreate nm g.stdout d.stdout
          if s.returncode ≠ 0 then .ok ⟨(vm_name, "Failed to create snapshot"), none⟩
          else
            match env.parseSnapshotId s.stdout with
            | some (some rid) => .ok ⟨(vm_name, nm), some rid⟩
            | some none => .ok ⟨(vm_name, nm), none⟩
            | none => .ok ⟨(vm_name, nm), none⟩

/-- Environment of the delete pipeline workers: results of az snapshot
show and az snapshot delete for each identifier.  The error case models
an exception raised while running the command. -/
structure DelEnv where
  snapshotShow : String → Except String String
  snapshotDelete : String → Except String String

/-- check_snapshot_exists (main.py lines 419-422): the command result is
error-tagged iff it starts with the Error: sentinel. -/
def check_snapshot_exists (env : DelEnv) (id : String) : Except String Bool :=
  match env.snapshotShow id with
  | .error e => .error e
  | .ok r => .ok (!(pyStartsWith r "Error:"))

/-- The delete-preflight worker process_snapshot (main.py lines 424-442).
It is total: identifiers with fewer than nine slash segments are tagged
invalid, an exception raised inside is caught and tagged error, and the
existence check decides valid against non-existent. -/
def process_snapshot (env : DelEnv) (subs : List (String × String)) (id : String) :
    Option String × String × Payload :=
  let parts := pySplit id '/'
  if parts.length < 9 then (none, "invalid", Payload.err id "Invalid snapshot ID format")
  else
    let subId := parts.getD 2 ""
    let subName := lookupD subs subId subId
    let snapName := pyLast parts
    match check_snapshot_exists env id with
    | .error e => (none, "error", Payload.err id e)
    | .ok true => (some subName, "valid", Payload.name snapName)
    | .ok false => (some subName, "non-existent", Payload.name snapName)

/-- delete_snapshot (main.py lines 444-447). -/
def delete_snapshot (env : DelEnv) (id : String) : Except String Bool :=
  match env.snapshotDelete id with
  | .error e => .error e
  | .ok r => .ok (!(pyStartsWith r "Error:"))

/-- Whether an Except value is a success. -/
def exceptOk {ε α : Type} : Except ε α → Bool
  | .ok _ => true
  | .error _ => false

/-- One step of the pre-validation dispatch loop (main.py lines 457-468).
A worker fault (future.result() raising) is caught and only logged:
nothing is recorded in the aggregate.  A truthy subscription name files
the payload under it and, for the valid tag, also queues the identifier
for deletion; a falsy one (None or empty) files under Unknown. -/
def preValStep (w : String → Except String (Option String × String × Payload))
    (acc : List String × Aggregate) (id : String) : List String × Aggregate :=
  match w id with
  | .error _ => acc
  | .ok (subName, status, data) =>
    match subName with
    | some n =>
      if n = "" then (acc.1, appendAt acc.2 "Unknown" status data)
      else ((if status = "valid" then acc.1 ++ [id] else acc.1), appendAt acc.2 n status data)
    | none => (acc.1, appendAt acc.2 "Unknown" status data)

/-- The pre-validation dispatcher over an arbitrary per-item worker,
returning the valid-identifier list and the aggregate. -/
def pre_validate_dispatch (w : String → Except String (Option String × String × Payload))
    (ids : List String) : List String × Aggregate :=
  ids.foldl (preValStep w) ([], [])

/-- pre_validate_snapshots (main.py lines 449-470) instantiated with the
actual worker, which never raises. -/
def pre_validate_snapshots (env : DelEnv) (subs : List (String × String))
    (ids : List String) : List String × Aggregate :=
  pre_validate_dispatch (fun id => Except.ok (process_snapshot env subs id)) ids

/-- One step of the deletion dispatch loop (main.py lines 479-494).  A
worker fault is caught and recorded as an error payload under Unknown
with the identifier and fault text; the IndexError of parts[2] for a
short identifier lands in the same handler.  Success and failure are
filed under the resolved subscription name. -/
def delValStep (w : String → Except String Bool) (subs : List (String × String))
    (acc : Aggregate) (id : String) : Aggregate :=
  match w id with
  | .error e => appendAt acc "Unknown" "error" (Payload.err id e)
  | .ok success =>
    let parts := pySplit id '/'
    if parts.length < 3 then
      appendAt acc "Unknown" "error" (Payload.err id "list index out of range")
    else
      let subId := parts.getD 2 ""
      let subName := lookupD subs subId subId
      let snapName := pyLast parts
      if success then appendAt acc subName "deleted" (Payload.name snapName)
      else appendAt acc subName "failed" (Payload.err snapName "Deletion failed")

/-- The deletion dispatcher over an arbitrary per-item worker. -/
def delete_valid_dispatch (w : String → Except String Bool)
    (subs : List (String × String)) (valid : List String) : Aggregate :=
  valid.foldl (delValStep w subs) []

/-- delete_valid_snapshots (main.py lines 472-496) instantiated with the
actual delete worker. -/
def delete_valid_snapshots (env : DelEnv) (subs : List (String × String))
    (valid : List String) : Aggregate :=
  delete_valid_dispatch (fun id => delete_snapshot env id) subs valid

/-- A lock removed before the destructive phase: subscription id,
resource group and lock name (main.py line 399). -/
structure LockRecord where
  sub : String
  rg : String
  lockName : String
deriving DecidableEq, Repr

/-- Environment of the lock guard: account switching (list-form command,
raises on failure), lock listing (raises when the command output is not
JSON, for instance an Error: sentinel string), and the result strings of
lock delete and lock create, keyed by lock name and resource group. -/
structure LockEnv where
  accountSet : String → Except String Unit
  lockList : String → Except String (List (String × String))
  lockDelete : String → String → String
  lockCreate : String → String → String

/-- switch_subscription (main.py lines 110-119): switch only when the
target differs from the current subscription; a failed switch raises. -/
def switch_subscription (env : LockEnv) (sub : String) (cur : Option String) :
    Except String (Option String) :=
  if cur = some sub then .ok cur
  else
    match env.accountSet sub with
    | .ok _ => .ok (some sub)
    | .error e => .error e

/-- Inner loop body of check_and_remove_scope_locks over one listed lock:
only CanNotDelete locks are deleted, and a LockRecord is appended only
when the delete command result is not error-tagged. -/
def lockRemoveStep (env : LockEnv) (sub rg : String) (acc : List LockRecord)
    (l : String × String) : List LockRecord :=
  if l.2 = "CanNotDelete" then
    if pyStartsWith (env.lockDelete l.1 rg) "Error:" then acc
    else acc ++ [⟨sub, rg, l.1⟩]
  else acc

/-- The scan loop of check_and_remove_scope_locks (main.py lines 387-403)
over the (subscription, resource group) pairs, threading the current
subscription.  A switch failure or a lock-list parse failure raises. -/
def checkAndRemoveGo (env : LockEnv) :
    List (String × String) → Option String → List LockRecord →
    Except String (List LockRecord)
  | [], _, acc => .ok acc
  | g :: rest, cur, acc =>
    match switch_subscription env g.1 cur with
    | .error e => .error e
    | .ok cur2 =>
      match env.lockList g.2 with
      | .error e => .error e
      | .ok locks => checkAndRemoveGo env rest cur2 (locks.foldl (lockRemoveStep env g.1 g.2) acc)

/-- check_and_remove_scope_locks. -/
def check_and_remove_scope_locks (env : LockEnv) (groups : List (String × String)) :
    Except String (List LockRecord) :=
  checkAndRemoveGo env groups none []

/-- The loop of restore_scope_locks (main.py lines 405-417).  The first
component is the returned count of restored locks (or the exception of a
failed subscription switch, which aborts the loop); the second is the
trace of records for which an az lock create command was issued. -/
def restoreGo (env : LockEnv) :
    List LockRecord → Option String → List LockRecord → Nat →
    Except String Nat × List LockRecord
  | [], _, att, n => (.ok n, att)
  | r :: rest, cur, att, n =>
    match switch_subscription env r.sub cur with
    | .error e => (.error e, att)
    | .ok cur2 =>
      if pyStartsWith (env.lockCreate r.lockName r.rg) "Error:" then
        restoreGo env rest cur2 (att ++ [r]) n
      else restoreGo env rest cur2 (att ++ [r]) (n + 1)

/-- restore_scope_locks: returns the restored count (or a propagated
switch failure) together with the list of attempted restorations. -/
def restore_scope_locks (env : LockEnv) (removed : List LockRecord) :
    Except String Nat × List LockRecord :=
  restoreGo env removed none [] 0

/-- get_resource_groups_from_snapshots (main.py lines 379-385): the
deduplicated (subscription id, resource group) pairs of identifiers with
at least five slash segments. -/
def get_resource_groups_from_snapshots (ids : List String) : List (String × String) :=
  ids.foldl (fun acc id =>
    let parts := pySplit id '/'
    if 5 ≤ parts.length then
      let key := (parts.getD 2 "", parts.getD 4 "")
      if key ∈ acc then acc else acc ++ [key]
    else acc) []

/-- Exception escaping the destructive phase of delete_snapshots: a
command exception from a lock function, or a user interrupt raised
during the deletion dispatch. -/
inductive PhaseExc where
  | cmd (e : String)
  | interrupt
deriving DecidableEq, Repr

/-- The destructive phase of delete_snapshots (main.py lines 600-616):
remove scope locks, delete the valid snapshots, restore the locks, merge
the aggregates.  There is no try/finally in the source, so an exception
anywhere before the restore call (modelled by the interrupted flag for a
user interrupt during the deletion dispatch, or by a raising lock scan)
propagates with no restoration attempted.  The second component is the
trace of attempted lock restorations. -/
def deletePhaseCore (lenv : LockEnv) (denv : DelEnv) (subs : List (String × String))
    (preResults : Aggregate) (valid : List String) (interrupted : Bool) :
    Except PhaseExc (Aggregate × Nat) × List LockRecord :=
  let groups := get_resource_groups_from_snapshots valid
  match check_and_remove_scope_locks lenv groups with
  | .error e => (.error (.cmd e), [])
  | .ok removed =>
    if interrupted then (.error .interrupt, [])
    else
      let delRes := delete_valid_snapshots denv subs valid
      let p := restore_scope_locks lenv removed
      match p.1 with
      | .error e => (.error (.cmd e), p.2)
      | .ok n => (.ok (mergeResults preResults delRes, n), p.2)

instance {ε α : Type} [DecidableEq ε] [DecidableEq α] : DecidableEq (Except ε α)
  | .ok a, .ok b =>
    if h : a = b then .isTrue (by rw [h]) else .isFalse (fun hc => by cases hc; exact h rfl)
  | .ok _, .error _ => .isFalse (fun hc => by cases hc)
  | .error _, .ok _ => .isFalse (fun hc => by cases hc)
  | .error e, .error f =>
    if h : e = f then .isTrue (by rw [h]) else .isFalse (fun hc => by cases hc; exact h rfl)

/-- Lookup after assignment: the assigned key reads the new value, every
other key is unchanged. -/
theorem lookupD_setKey {κ ν : Type} [DecidableEq κ] (m : List (κ × ν)) (k k2 : κ)
    (v d : ν) : lookupD (setKey m k v) k2 d = if k = k2 then v else lookupD m k2 d := by
  induction m with
  | nil => simp [setKey, lookupD]
  | cons hd tl ih =>
    obtain ⟨a, w⟩ := hd
    by_cases hak : a = k
    · subst hak
      simp only [setKey, if_pos rfl, lookupD]
      by_cases hk2 : a = k2 <;> simp [hk2, lookupD]
    · simp only [setKey, if_neg hak, lookupD]
      by_cases hk2 : a = k2
      · subst hk2
        have : ¬ k = a := fun h => hak h.symm
        simp [this]
      · simp [hk2, ih]

/-- A key that is absent reads the default. -/
theorem lookupD_eq_default {κ ν : Type} [DecidableEq κ] (m : List (κ × ν)) (k : κ)
    (d : ν) (h : hasKey m k = false) : lookupD m k d = d := by
  induction m with
  | nil => simp [lookupD]
  | cons hd tl ih =>
    obtain ⟨a, w⟩ := hd
    simp only [hasKey, Bool.or_eq_false_iff, decide_eq_false_iff_not] at h
    simp [lookupD, h.1, ih h.2]

/-- Effect of Python dict.update on a single lookup: a tag present in the
update data reads the data bucket, any other tag is untouched.  The keys
of the data dict are unique, as for every Python dict. -/
theorem lookupD_updateInner (data : SubAgg) :
    ∀ (inner : SubAgg) (t : String), (data.map Prod.fst).Nodup →
    lookupD (updateInner inner data) t [] =
      if hasKey data t then lookupD data t [] else lookupD inner t [] := by
  induction data with
  | nil => intro inner t _; simp [updateInner, hasKey, lookupD]
  | cons hd tl ih =>
    intro inner t hnd
    obtain ⟨t0, b0⟩ := hd
    rw [List.map_cons, List.nodup_cons] at hnd
    have step : updateInner inner ((t0, b0) :: tl) = updateInner (setKey inner t0 b0) tl := rfl
    rw [step, ih (setKey inner t0 b0) t hnd.2]
    by_cases ht : t0 = t
    · subst ht
      have habs : hasKey tl t0 = false := by
        by_contra hcon
        rw [Bool.not_eq_false] at hcon
        have : t0 ∈ tl.map Prod.fst := by
          clear hnd step ih
          induction tl with
          | nil => simp [hasKey] at hcon
          | cons h2 t2 ih2 =>
            simp only [hasKey, Bool.or_eq_true, decide_eq_true_eq] at hcon
            rcases hcon with h | h
            · simp [h]
            · simp [ih2 h]
        exact hnd.1 this
      simp [habs, hasKey, lookupD, lookupD_setKey]
    · simp only [hasKey, lookupD, if_neg ht]
      have : (decide (t0 = t) || hasKey tl t) = hasKey tl t := by simp [ht]
      rw [this]
      by_cases htl : hasKey tl t
      · simp [htl]
      · simp only [htl, if_false, Bool.false_eq_true]
        rw [lookupD_setKey, if_neg ht]

/-- Appending a payload touches exactly one bucket. -/
theorem bucketOf_appendAt (m : Aggregate) (k t k2 t2 : String) (p : Payload) :
    bucketOf (appendAt m k t p) k2 t2 =
      if k = k2 ∧ t = t2 then bucketOf m k t ++ [p] else bucketOf m k2 t2 := by
  unfold bucketOf appendAt
  rw [lookupD_setKey]
  by_cases hk : k = k2
  · subst hk
    rw [if_pos rfl, lookupD_setKey]
    by_cases ht : t = t2
    · subst ht; simp
    · simp [ht]
  · simp [hk]

/-- Payload membership in a bucket survives an append elsewhere. -/
theorem mem_bucketOf_appendAt (m : Aggregate) (k t k2 t2 : String) (p q : Payload)
    (h : p ∈ bucketOf m k2 t2) : p ∈ bucketOf (appendAt m k t q) k2 t2 := by
  rw [bucketOf_appendAt]
  by_cases hc : k = k2 ∧ t = t2
  · obtain ⟨hk, ht⟩ := hc
    subst hk; subst ht
    simp only [if_pos (And.intro rfl rfl)]
    exact List.mem_append_left _ h
  · rw [if_neg hc]; exact h

/-- Generalised merge characterisation, by induction over the deletion
aggregate with the accumulated pre-validation aggregate generalised. -/
theorem mergeResults_bucket (del : Aggregate) :
    ∀ (pre : Aggregate) (k t : String), WFAgg del →
    bucketOf (mergeResults pre del) k t =
      if hasTag del k t then bucketOf del k t else bucketOf pre k t := by
  induction del with
  | nil =>
    intro pre k t _
    simp [mergeResults, hasTag, hasKey, lookupD, bucketOf]
  | cons hd tl ih =>
    intro pre k t hwf
    obtain ⟨k0, d0⟩ := hd
    obtain ⟨hout, hin⟩ := hwf
    rw [List.map_cons, List.nodup_cons] at hout
    have hwftl : WFAgg tl := ⟨hout.2, fun p hp => hin p (List.mem_cons_of_mem _ hp)⟩
    have hd0 : (d0.map Prod.fst).Nodup := hin (k0, d0) (List.mem_cons_self _ _)
    have step : mergeResults pre ((k0, d0) :: tl) =
        mergeResults (setKey pre k0 (updateInner (lookupD pre k0 []) d0)) tl := rfl
    rw [step, ih _ k t hwftl]
    by_cases hk : k0 = k
    · subst hk
      have habs : hasKey (lookupD tl k0 []) t = false := by
        have : hasKey tl k0 = false := by
          by_contra hcon
          rw [Bool.not_eq_false] at hcon
          have : k0 ∈ tl.map Prod.fst := by
            clear hout hin hwftl hd0 step ih
            induction tl with
            | nil => simp [hasKey] at hcon
            | cons h2 t2 ih2 =>
              simp only [hasKey, Bool.or_eq_true, decide_eq_true_eq] at hcon
              rcases hcon with h | h
              · simp [h]
              · simp [ih2 h]
          exact hout.1 this
        rw [lookupD_eq_default _ _ _ this]
        rfl
      rw [show hasTag tl k0 t = hasKey (lookupD tl k0 []) t from rfl, habs]
      simp only [Bool.false_eq_true, if_false]
      unfold bucketOf
      rw [lookupD_setKey, if_pos rfl]
      rw [lookupD_updateInner d0 _ t hd0]
      have hfront : lookupD ((k0, d0) :: tl) k0 [] = d0 := by simp [lookupD]
      rw [show hasTag ((k0, d0) :: tl) k0 t = hasKey (lookupD ((k0, d0) :: tl) k0 []) t from rfl,
        hfront]
    · have hskip : lookupD ((k0, d0) :: tl) k [] = lookupD tl k [] := by
        simp [lookupD, hk]
      rw [show hasTag ((k0, d0) :: tl) k t = hasKey (lookupD ((k0, d0) :: tl) k []) t from rfl,
        hskip]
      rw [show hasTag tl k t = hasKey (lookupD tl k []) t from rfl]
      by_cases htl : hasKey (lookupD tl k []) t
      · simp only [htl, if_pos]
        unfold bucketOf
        rw [hskip]
      · simp only [htl, Bool.false_eq_true, if_false]
        unfold bucketOf
        rw [lookupD_setKey, if_neg hk]

/-- Assigning a bucket changes the inner total by the difference between
the new bucket and the bucket previously stored under the tag. -/
theorem innerTotal_setKey (inner : SubAgg) (t : String) (b : List Payload) :
    innerTotal (setKey inner t b) + (lookupD inner t []).length =
      innerTotal inner + b.length := by
  induction inner with
  | nil => simp [innerTotal, setKey, lookupD]
  | cons hd tl ih =>
    obtain ⟨a, w⟩ := hd
    by_cases hat : a = t
    · subst hat
      simp [setKey, lookupD, innerTotal]
      omega
    · simp only [setKey, if_neg hat, lookupD, innerTotal, List.map_cons, List.sum_cons]
      have ih2 := ih
      simp only [innerTotal] at ih2
      omega

/-- Assigning an inner map changes the aggregate total likewise. -/
theorem aggTotal_setKey (a : Aggregate) (k : String) (v : SubAgg) :
    aggTotal (setKey a k v) + innerTotal (lookupD a k []) =
      aggTotal a + innerTotal v := by
  induction a with
  | nil => simp [aggTotal, setKey, lookupD, innerTotal]
  | cons hd tl ih =>
    obtain ⟨b, w⟩ := hd
    by_cases hbk : b = k
    · subst hbk
      simp [setKey, lookupD, aggTotal]
      omega
    · simp only [setKey, if_neg hbk, lookupD, aggTotal, List.map_cons, List.sum_cons]
      have ih2 := ih
      simp only [aggTotal] at ih2
      omega

/-- Appending one payload raises the aggregate total by exactly one. -/
theorem aggTotal_appendAt (m : Aggregate) (k t : String) (p : Payload) :
    aggTotal (appendAt m k t p) = aggTotal m + 1 := by
  show aggTotal (setKey m k (setKey (lookupD m k []) t (lookupD (lookupD m k []) t [] ++ [p]))) =
    aggTotal m + 1
  have h1 := aggTotal_setKey m k (setKey (lookupD m k []) t (lookupD (lookupD m k []) t [] ++ [p]))
  have h2 := innerTotal_setKey (lookupD m k []) t (lookupD (lookupD m k []) t [] ++ [p])
  simp only [List.length_append, List.length_singleton] at h2
  omega

/-- Number of items of the list whose worker call succeeds. -/
def countOk (w : String → Except String (Option String × String × Payload))
    (ids : List String) : Nat :=
  (ids.filter (fun i => exceptOk (w i))).length

/-- One pre-validation step adds one payload when the worker succeeds and
nothing when it raises. -/
theorem aggTotal_preValStep (w : String → Except String (Option String × String × Payload))
    (acc : List String × Aggregate) (id : String) :
    aggTotal (preValStep w acc id).2 =
      aggTotal acc.2 + (if exceptOk (w id) then 1 else 0) := by
  unfold preValStep
  cases hw : w id with
  | error e => simp [exceptOk, hw]
  | ok v =>
    obtain ⟨subName, status, data⟩ := v
    cases subName with
    | none => simp [exceptOk, aggTotal_appendAt]
    | some n =>
      by_cases hn : n = ""
      · simp [hn, exceptOk, aggTotal_appendAt]
      · by_cases hs : status = "valid" <;> simp [hn, hs, exceptOk, aggTotal_appendAt]

/-- The pre-validation fold adds exactly one payload per successful
worker call, none per fault. -/
theorem aggTotal_preValFold (w : String → Except String (Option String × String × Payload)) :
    ∀ (ids : List String) (acc : List String × Aggregate),
    aggTotal (ids.foldl (preValStep w) acc).2 = aggTotal acc.2 + countOk w ids := by
  intro ids
  induction ids with
  | nil => intro acc; simp [countOk]
  | cons hd tl ih =>
    intro acc
    rw [List.foldl_cons, ih (preValStep w acc hd), aggTotal_preValStep]
    simp only [countOk, List.filter_cons]
    by_cases h : exceptOk (w hd)
    · simp [h]
      omega
    · simp [h]

/-- Payload membership in a bucket survives a deletion dispatch step. -/
theorem mem_bucket_delValStep (w : String → Except String Bool)
    (subs : List (String × String)) (acc : Aggregate) (id k t : String) (p : Payload)
    (h : p ∈ bucketOf acc k t) : p ∈ bucketOf (delValStep w subs acc id) k t := by
  unfold delValStep
  cases hw : w id with
  | error e => exact mem_bucketOf_appendAt _ _ _ _ _ _ _ h
  | ok success =>
    by_cases hlen : (pySplit id '/').length < 3
    · simp only [if_pos hlen]
      exact mem_bucketOf_appendAt _ _ _ _ _ _ _ h
    · simp only [if_neg hlen]
      cases success <;> simp only [if_true, if_false, Bool.false_eq_true] <;>
        exact mem_bucketOf_appendAt _ _ _ _ _ _ _ h

/-- Payload membership in a bucket survives the whole deletion fold. -/
theorem mem_bucket_delFold (w : String → Except String Bool)
    (subs : List (String × String)) :
    ∀ (ids : List String) (acc : Aggregate) (k t : String) (p : Payload),
    p ∈ bucketOf acc k t → p ∈ bucketOf (ids.foldl (delValStep w subs) acc) k t := by
  intro ids
  induction ids with
  | nil => intro acc k t p h; exact h
  | cons hd tl ih =>
    intro acc k t p h
    exact ih _ k t p (mem_bucket_delValStep w subs acc hd k t p h)

/-- An identifier whose delete worker raises leaves an error payload with
the identifier and the fault text in the Unknown bucket. -/
theorem delFold_error_mem (w : String → Except String Bool)
    (subs : List (String × String)) :
    ∀ (ids : List String) (acc : Aggregate) (id e : String),
    id ∈ ids → w id = .error e →
    Payload.err id e ∈ bucketOf (ids.foldl (delValStep w subs) acc) "Unknown" "error" := by
  intro ids
  induction ids with
  | nil => intro acc id e h; exact absurd h (List.not_mem_nil id)
  | cons hd tl ih =>
    intro acc id e hmem hw
    rcases List.mem_cons.mp hmem with heq | htl
    · subst heq
      rw [List.foldl_cons]
      apply mem_bucket_delFold
      unfold delValStep
      rw [hw, bucketOf_appendAt]
      simp
    · rw [List.foldl_cons]
      exact ih _ id e htl hw

/-- The restored count returned by the restoration loop never exceeds the
starting count plus the number of records left to process. -/
theorem restoreGo_le (env : LockEnv) :
    ∀ (l : List LockRecord) (cur : Option String) (att : List LockRecord) (n m : Nat),
    (restoreGo env l cur att n).1 = .ok m → m ≤ n + l.length := by
  intro l
  induction l with
  | nil =>
    intro cur att n m h
    simp only [restoreGo] at h
    cases h
    omega
  | cons r rest ih =>
    intro cur att n m h
    simp only [restoreGo] at h
    split at h
    · cases h
    · split at h
      · have := ih _ (att ++ [r]) n m h
        simp only [List.length_cons]
        omega
      · have := ih _ (att ++ [r]) (n + 1) m h
        simp only [List.length_cons]
        omega

/-- When every subscription switch succeeds, the restoration loop
attempts every record exactly once, in order, whatever the lock-create
results are. -/
theorem restoreGo_att (env : LockEnv) (hsw : ∀ s, env.accountSet s = .ok ()) :
    ∀ (l : List LockRecord) (cur : Option String) (att : List LockRecord) (n : Nat),
    (restoreGo env l cur att n).2 = att ++ l := by
  intro l
  induction l with
  | nil => intro cur att n; simp [restoreGo]
  | cons r rest ih =>
    intro cur att n
    have hswitch : ∃ cur2, switch_subscription env r.sub cur = .ok cur2 := by
      unfold switch_subscription
      by_cases hc : cur = some r.sub
      · exact ⟨cur, by rw [if_pos hc]⟩
      · exact ⟨some r.sub, by rw [if_neg hc, hsw r.sub]⟩
    obtain ⟨cur2, hc2⟩ := hswitch
    simp only [restoreGo, hc2]
    by_cases hc : pyStartsWith (env.lockCreate r.lockName r.rg) "Error:"
    · rw [if_pos hc, ih cur2 (att ++ [r]) n]
      simp
    · rw [if_neg hc, ih cur2 (att ++ [r]) (n + 1)]
      simp

/-- When every subscription switch succeeds and no lock-create result is
error-tagged, the restoration loop restores every record. -/
theorem restoreGo_count (env : LockEnv) (hsw : ∀ s, env.accountSet s = .ok ()) :
    ∀ (l : List LockRecord) (cur : Option String) (att : List LockRecord) (n : Nat),
    (∀ r ∈ l, pyStartsWith (env.lockCreate r.lockName r.rg) "Error:" = false) →
    (restoreGo env l cur att n).1 = .ok (n + l.length) := by
  intro l
  induction l with
  | nil => intro cur att n _; simp [restoreGo]
  | cons r rest ih =>
    intro cur att n hok
    have hswitch : ∃ cur2, switch_subscription env r.sub cur = .ok cur2 := by
      unfold switch_subscription
      by_cases hc : cur = some r.sub
      · exact ⟨cur, by rw [if_pos hc]⟩
      · exact ⟨some r.sub, by rw [if_neg hc, hsw r.sub]⟩
    obtain ⟨cur2, hc2⟩ := hswitch
    simp only [restoreGo, hc2]
    have hr := hok r (List.mem_cons_self _ _)
    rw [hr]
    simp only [Bool.false_eq_true, if_false]
    rw [ih cur2 (att ++ [r]) (n + 1) (fun x hx => hok x (List.mem_cons_of_mem _ hx))]
    simp only [List.length_cons]
    rw [Nat.add_assoc, Nat.add_comm 1 rest.length]

/-- Records produced by the per-lock removal fold all passed the
confirmed-removal test, provided the accumulator already did. -/
theorem lockFold_sound (env : LockEnv) (sub rg : String) :
    ∀ (locks : List (String × String)) (acc : List LockRecord),
    (∀ r ∈ acc, pyStartsWith (env.lockDelete r.lockName r.rg) "Error:" = false) →
    ∀ r ∈ locks.foldl (lockRemoveStep env sub rg) acc,
    pyStartsWith (env.lockDelete r.lockName r.rg) "Error:" = false := by
  intro locks
  induction locks with
  | nil => intro acc hacc r hr; exact hacc r hr
  | cons l ls ih =>
    intro acc hacc r hr
    rw [List.foldl_cons] at hr
    refine ih _ ?_ r hr
    intro x hx
    unfold lockRemoveStep at hx
    by_cases hlvl : l.2 = "CanNotDelete"
    · rw [if_pos hlvl] at hx
      by_cases hdel : pyStartsWith (env.lockDelete l.1 rg) "Error:"
      · rw [if_pos hdel] at hx
        exact hacc x hx
      · rw [if_neg hdel] at hx
        rcases List.mem_append.mp hx with h | h
        · exact hacc x h
        · rcases List.mem_singleton.mp h with rfl
          simpa using hdel
    · rw [if_neg hlvl] at hx
      exact hacc x hx

/-- Every LockRecord returned by the scan loop passed the
confirmed-removal test. -/
theorem checkAndRemoveGo_sound (env : LockEnv) :
    ∀ (groups : List (String × String)) (cur : Option String) (acc recs : List LockRecord),
    (∀ r ∈ acc, pyStartsWith (env.lockDelete r.lockName r.rg) "Error:" = false) →
    checkAndRemoveGo env groups cur acc = .ok recs →
    ∀ r ∈ recs, pyStartsWith (env.lockDelete r.lockName r.rg) "Error:" = false := by
  intro groups
  induction groups with
  | nil =>
    intro cur acc recs hacc h
    simp only [checkAndRemoveGo] at h
    cases h
    exact hacc
  | cons g rest ih =>
    intro cur acc recs hacc h
    simp only [checkAndRemoveGo] at h
    cases hsw : switch_subscription env g.1 cur with
    | error e => rw [hsw] at h; cases h
    | ok cur2 =>
      rw [hsw] at h
      cases hll : env.lockList g.2 with
      | error e => rw [hll] at h; cases h
      | ok locks =>
        rw [hll] at h
        exact ih cur2 _ recs (lockFold_sound env g.1 g.2 locks acc hacc) h

/-- C6: any snapshot identifier with fewer than nine slash segments is
classified by the delete-preflight worker as invalid-format, never as
valid or non-existent; the worker is a total function, so processing the
identifier raises nothing, whatever the command environment or the
subscription-name map. -/
theorem short_id_classified_invalid (env : DelEnv) (subs : List (String × String))
    (id : String) (h : (pySplit id '/').length < 9) :
    process_snapshot env subs id =
      (none, "invalid", Payload.err id "Invalid snapshot ID format") := by
  unfold process_snapshot
  rw [if_pos h]

/-- Witness for C6 at the concrete malformed identifier a/b. -/
theorem short_id_classified_invalid_witness :
    process_snapshot ⟨fun _ => .ok "", fun _ => .ok ""⟩ [] "a/b" =
      (none, "invalid", Payload.err "a/b" "Invalid snapshot ID format") :=
  short_id_classified_invalid ⟨fun _ => .ok "", fun _ => .ok ""⟩ [] "a/b" (by decide)

/-- C10: the delete-preflight worker is total and returns exactly one of
the four classifications invalid, non-existent, valid, error; an
exception raised by the existence check is caught and converted into the
error classification carrying the identifier and the exception text. -/
theorem process_snapshot_total_classification (env : DelEnv)
    (subs : List (String × String)) (id : String) :
    ((process_snapshot env subs id).2.1 = "invalid" ∨
     (process_snapshot env subs id).2.1 = "non-existent" ∨
     (process_snapshot env subs id).2.1 = "valid" ∨
     (process_snapshot env subs id).2.1 = "error") ∧
    (∀ e, 9 ≤ (pySplit id '/').length → env.snapshotShow id = .error e →
      process_snapshot env subs id = (none, "error", Payload.err id e)) := by
  constructor
  · unfold process_snapshot
    by_cases h : (pySplit id '/').length < 9
    · rw [if_pos h]
      left
      rfl
    · rw [if_neg h]
      cases hc : check_snapshot_exists env id with
      | error e => simp
      | ok b => cases b <;> simp
  · intro e hlen hshow
    unfold process_snapshot
    rw [if_neg (by omega)]
    unfold check_snapshot_exists
    rw [hshow]

/-- Witness for C10: a raising existence check on a well-formed
identifier yields the error classification. -/
theorem process_snapshot_total_classification_witness :
    process_snapshot ⟨fun _ => .error "boom", fun _ => .ok ""⟩ []
        "/subscriptions/s1/resourceGroups/rg1/providers/Microsoft.Compute/snapshots/snapA" =
      (none, "error",
        Payload.err
          "/subscriptions/s1/resourceGroups/rg1/providers/Microsoft.Compute/snapshots/snapA"
          "boom") :=
  (process_snapshot_total_classification ⟨fun _ => .error "boom", fun _ => .ok ""⟩ []
      "/subscriptions/s1/resourceGroups/rg1/providers/Microsoft.Compute/snapshots/snapA").2
    "boom" (by decide) rfl

/-- Unfolding equation of the retry loop for a positive attempt budget. -/
theorem runAzRetryGo_succ (att : Nat → CmdAttempt) (delay i rem slept : Nat) :
    runAzRetryGo att delay i (rem + 1) slept =
      if (att i).returncode = 0 then
        some (((att i).stdout, (att i).stderr, (att i).returncode), slept)
      else if rem = 0 then some (("", (att i).stderr, (att i).returncode), slept)
      else runAzRetryGo att delay (i + 1) rem (slept + delay) := rfl

/-- C5: with the default budget of three attempts and a five-unit delay,
the asynchronous retrying executor returns the attempt result at the
first zero exit code (having slept five units per preceding failure),
returns empty stdout with the last stderr and exit code when all three
attempts fail, and consults no attempt beyond the third. -/
theorem retry_executor_contract (att att2 : Nat → CmdAttempt) :
    ((att 0).returncode = 0 →
      run_az_command_async att 3 5 =
        some (((att 0).stdout, (att 0).stderr, (att 0).returncode), 0)) ∧
    ((att 0).returncode ≠ 0 → (att 1).returncode = 0 →
      run_az_command_async att 3 5 =
        some (((att 1).stdout, (att 1).stderr, (att 1).returncode), 5)) ∧
    ((att 0).returncode ≠ 0 → (att 1).returncode ≠ 0 → (att 2).returncode = 0 →
      run_az_command_async att 3 5 =
        some (((att 2).stdout, (att 2).stderr, (att 2).returncode), 10)) ∧
    ((att 0).returncode ≠ 0 → (att 1).returncode ≠ 0 → (att 2).returncode ≠ 0 →
      run_az_command_async att 3 5 =
        some (("", (att 2).stderr, (att 2).returncode), 10)) ∧
    ((∀ i, i < 3 → att i = att2 i) →
      run_az_command_async att 3 5 = run_az_command_async att2 3 5) := by
  have run3 : ∀ (f : Nat → CmdAttempt), run_az_command_async f 3 5 =
      if (f 0).returncode = 0 then some (((f 0).stdout, (f 0).stderr, (f 0).returncode), 0)
      else if (f 1).returncode = 0 then some (((f 1).stdout, (f 1).stderr, (f 1).returncode), 5)
      else if (f 2).returncode = 0 then some (((f 2).stdout, (f 2).stderr, (f 2).returncode), 10)
      else some (("", (f 2).stderr, (f 2).returncode), 10) := by
    intro f
    unfold run_az_command_async
    rw [show (3 : Nat) = 2 + 1 from rfl, runAzRetryGo_succ]
    by_cases h0 : (f 0).returncode = 0
    · rw [if_pos h0, if_pos h0]
    · rw [if_neg h0, if_neg h0, if_neg (by decide : ¬(2 : Nat) = 0)]
      rw [show (2 : Nat) = 1 + 1 from rfl, runAzRetryGo_succ]
      by_cases h1 : (f 1).returncode = 0
      · rw [if_pos h1, if_pos h1]
      · rw [if_neg h1, if_neg h1, if_neg (by decide : ¬(1 : Nat) = 0)]
        rw [show (1 : Nat) = 0 + 1 from rfl, runAzRetryGo_succ]
        by_cases h2 : (f 2).returncode = 0
        · rw [if_pos h2, if_pos h2]
        · rw [if_neg h2, if_neg h2, if_pos rfl]
  refine ⟨?_, ?_, ?_, ?_, ?_⟩
  · intro h0
    rw [run3, if_pos h0]
  · intro h0 h1
    rw [run3, if_neg h0, if_pos h1]
  · intro h0 h1 h2
    rw [run3, if_neg h0, if_neg h1, if_pos h2]
  · intro h0 h1 h2
    rw [run3, if_neg h0, if_neg h1, if_neg h2]
  · intro h
    rw [run3, run3, h 0 (by omega), h 1 (by omega), h 2 (by omega)]

/-- Witness for C5: a command failing twice then succeeding on the third
attempt yields a success result after ten units of sleep. -/
theorem retry_executor_contract_witness :
    run_az_command_async (fun i => ⟨"out", "err", if i < 2 then 1 else 0⟩) 3 5 =
      some (("out", "err", 0), 10) :=
  (retry_executor_contract (fun i => ⟨"out", "err", if i < 2 then 1 else 0⟩)
      (fun i => ⟨"out", "err", if i < 2 then 1 else 0⟩)).2.2.1
    (by decide) (by decide) (by decide)

/-- C8: the creation worker short-circuits at the first failing command,
returning a Failed status naming the stage (subscription set, disk-id
fetch, resource-group fetch, snapshot create); when the snapshot-create
command succeeds the worker returns the success pair of VM name and
generated snapshot name whatever the JSON parse of the create output
does (parse failure is only a logged warning).  The identifier is well
formed: at least three slash segments with a non-empty third segment. -/
theorem process_vm_short_circuit (env : VmEnv) (rid vm chg ts : String)
    (hlen : 3 ≤ (pySplit rid '/').length)
    (hsub : (pySplit rid '/').getD 2 "" ≠ "") :
    ((env.accountSet ((pySplit rid '/').getD 2 "")).returncode ≠ 0 →
      process_vm env rid vm chg ts = .ok ⟨(vm, "Failed to set subscription ID"), none⟩) ∧
    ((env.accountSet ((pySplit rid '/').getD 2 "")).returncode = 0 →
      ((env.vmShowDisk rid).returncode ≠ 0 ∨ (env.vmShowDisk rid).stdout = "") →
      process_vm env rid vm chg ts = .ok ⟨(vm, "Failed to get disk ID"), none⟩) ∧
    ((env.accountSet ((pySplit rid '/').getD 2 "")).returncode = 0 →
      (env.vmShowDisk rid).returncode = 0 → (env.vmShowDisk rid).stdout ≠ "" →
      (env.vmShowRg rid).returncode ≠ 0 →
      process_vm env rid vm chg ts = .ok ⟨(vm, "Failed to get resource group"), none⟩) ∧
    ((env.accountSet ((pySplit rid '/').getD 2 "")).returncode = 0 →
      (env.vmShowDisk rid).returncode = 0 → (env.vmShowDisk rid).stdout ≠ "" →
      (env.vmShowRg rid).returncode = 0 →
      (env.snapshotCreate (snapshotNameOf chg vm ts) (env.vmShowRg rid).stdout
        (env.vmShowDisk rid).stdout).returncode ≠ 0 →
      process_vm env rid vm chg ts = .ok ⟨(vm, "Failed to create snapshot"), none⟩) ∧
    ((env.accountSet ((pySplit rid '/').getD 2 "")).returncode = 0 →
      (env.vmShowDisk rid).returncode = 0 → (env.vmShowDisk rid).stdout ≠ "" →
      (env.vmShowRg rid).returncode = 0 →
      (env.snapshotCreate (snapshotNameOf chg vm ts) (env.vmShowRg rid).stdout
        (env.vmShowDisk rid).stdout).returncode = 0 →
      Except.map VmOutcome.result (process_vm env rid vm chg ts) =
        .ok (vm, snapshotNameOf chg vm ts)) := by
  have hnotlt : ¬ (pySplit rid '/').length < 3 := by omega
  refine ⟨?_, ?_, ?_, ?_, ?_⟩
  · intro ha
    simp only [process_vm, hnotlt, if_false, if_neg hsub, if_pos ha]
  · intro ha hd
    have hd2 : (env.vmShowDisk rid).returncode ≠ 0 ∨ (env.vmShowDisk rid).stdout = "" := hd
    simp only [process_vm, hnotlt, if_false, if_neg hsub]
    rw [if_neg (by simp only [ne_eq, not_not]; exact ha), if_pos hd2]
  · intro ha hd hds hg
    simp only [process_vm, hnotlt, if_false, if_neg hsub]
    rw [if_neg (by simp only [ne_eq, not_not]; exact ha),
      if_neg (by intro hc; rcases hc with h | h; exacts [h hd, hds h]), if_pos hg]
  · intro ha hd hds hg hs
    simp only [process_vm, hnotlt, if_false, if_neg hsub]
    rw [if_neg (by simp only [ne_eq, not_not]; exact ha),
      if_neg (by intro hc; rcases hc with h | h; exacts [h hd, hds h]),
      if_neg (by simp only [ne_eq, not_not]; exact hg), if_pos hs]
  · intro ha hd hds hg hs
    simp only [process_vm, hnotlt, if_false, if_neg hsub]
    rw [if_neg (by simp only [ne_eq, not_not]; exact ha),
      if_neg (by intro hc; rcases hc with h | h; exacts [h hd, hds h]),
      if_neg (by simp only [ne_eq, not_not]; exact hg),
      if_neg (by simp only [ne_eq, not_not]; exact hs)]
    cases hp : env.parseSnapshotId (env.snapshotCreate (snapshotNameOf chg vm ts)
        (env.vmShowRg rid).stdout (env.vmShowDisk rid).stdout).stdout with
    | none => rfl
    | some o => cases o <;> rfl

/-- Witness for C8: an environment whose commands all succeed but whose
create output is unparseable JSON still yields the success result. -/
theorem process_vm_short_circuit_witness :
    Except.map VmOutcome.result
        (process_vm ⟨fun _ => ⟨"", "", 0⟩, fun _ => ⟨"disk", "", 0⟩, fun _ => ⟨"rg", "", 0⟩,
            fun _ _ _ => ⟨"notjson", "", 0⟩, fun _ => none⟩
          "/subscriptions/s1/resourceGroups/rg1/providers/Microsoft.Compute/virtualMachines/vm01"
          "vm01" "CHG123" "20240101000000") =
      .ok ("vm01", snapshotNameOf "CHG123" "vm01" "20240101000000") :=
  (process_vm_short_circuit ⟨fun _ => ⟨"", "", 0⟩, fun _ => ⟨"disk", "", 0⟩, fun _ => ⟨"rg", "", 0⟩,
        fun _ _ _ => ⟨"notjson", "", 0⟩, fun _ => none⟩
      "/subscriptions/s1/resourceGroups/rg1/providers/Microsoft.Compute/virtualMachines/vm01"
      "vm01" "CHG123" "20240101000000" (by decide) (by decide)).2.2.2.2
    (by decide) (by decide) (by decide) (by decide) (by decide)

/-- C9 (amended): every successful creation-worker result carries the
snapshot name RH_ followed by the ticket number, the VM name and the
run-wide timestamp, joined by underscores; the timestamp is a parameter
fixed once per run, so all snapshots of one run share it. -/
theorem snapshot_name_scheme (env : VmEnv) (rid vm chg ts : String) (out : VmOutcome)
    (hok : process_vm env rid vm chg ts = .ok out)
    (hsucc : pyStartsWith out.result.2 "Failed" = false) :
    out.result.2 = snapshotNameOf chg vm ts ∧
      snapshotNameOf chg vm ts = "RH_" ++ chg ++ "_" ++ vm ++ "_" ++ ts := by
  refine ⟨?_, rfl⟩
  unfold process_vm at hok
  by_cases hlen : (pySplit rid '/').length < 3
  · rw [if_pos hlen] at hok
    cases hok
  · rw [if_neg hlen] at hok
    by_cases hempty : (pySplit rid '/').getD 2 "" = ""
    · rw [if_pos hempty] at hok
      cases hok
      simp [pyStartsWith] at hsucc
    · rw [if_neg hempty] at hok
      by_cases ha : (env.accountSet ((pySplit rid '/').getD 2 "")).returncode ≠ 0
      · rw [if_pos ha] at hok
        cases hok
        simp [pyStartsWith] at hsucc
      · rw [if_neg ha] at hok
        by_cases hd : (env.vmShowDisk rid).returncode ≠ 0 ∨ (env.vmShowDisk rid).stdout = ""
        · rw [if_pos hd] at hok
          cases hok
          simp [pyStartsWith] at hsucc
        · rw [if_neg hd] at hok
          by_cases hg : (env.vmShowRg rid).returncode ≠ 0
          · rw [if_pos hg] at hok
            cases hok
            simp [pyStartsWith] at hsucc
          · rw [if_neg hg] at hok
            by_cases hs : (env.snapshotCreate (snapshotNameOf chg vm ts)
                (env.vmShowRg rid).stdout (env.vmShowDisk rid).stdout).returncode ≠ 0
            · rw [if_pos hs] at hok
              cases hok
              simp [pyStartsWith] at hsucc
            · rw [if_neg hs] at hok
              cases hp : env.parseSnapshotId (env.snapshotCreate (snapshotNameOf chg vm ts)
                  (env.vmShowRg rid).stdout (env.vmShowDisk rid).stdout).stdout with
              | none => rw [hp] at hok; cases hok; rfl
              | some o =>
                rw [hp] at hok
                cases o with
                | none => cases hok; rfl
                | some r => cases hok; rfl

/-- Counterexample for C9 as stated: the generated name for ticket
CHG123, VM vm01 and timestamp 20240101000000 is prefixed with RH_ and is
not of the bare TICKET_VMNAME_TIMESTAMP form the claim quotes. -/
theorem snapshot_name_has_prefix :
    snapshotNameOf "CHG123" "vm01" "20240101000000" = "RH_CHG123_vm01_20240101000000" ∧
      snapshotNameOf "CHG123" "vm01" "20240101000000" ≠
        "CHG123" ++ "_" ++ "vm01" ++ "_" ++ "20240101000000" := by
  constructor
  · rfl
  · decide

/-- Witness for C9 at a concrete successful run of the worker. -/
theorem snapshot_name_scheme_witness :
    (VmOutcome.mk ("vm01", "RH_CHG123_vm01_20240101000000") none).result.2 =
        snapshotNameOf "CHG123" "vm01" "20240101000000" ∧
      snapshotNameOf "CHG123" "vm01" "20240101000000" =
        "RH_" ++ "CHG123" ++ "_" ++ "vm01" ++ "_" ++ "20240101000000" :=
  snapshot_name_scheme
    ⟨fun _ => ⟨"", "", 0⟩, fun _ => ⟨"disk", "", 0⟩, fun _ => ⟨"rg", "", 0⟩,
      fun _ _ _ => ⟨"notjson", "", 0⟩, fun _ => none⟩
    "/subscriptions/s1/resourceGroups/rg1/providers/Microsoft.Compute/virtualMachines/vm01"
    "vm01" "CHG123" "20240101000000"
    (VmOutcome.mk ("vm01", "RH_CHG123_vm01_20240101000000") none) (by decide) (by decide)

/-- C7: the restored-lock count returned by restore_scope_locks never
exceeds the number of removed locks; it equals it when no command run
during restoration fails (every subscription switch succeeds and no
lock-create result is error-tagged); and check_and_remove_scope_locks
records a LockRecord only on confirmed removal, that is, only when the
lock-delete command result is not error-tagged. -/
theorem lock_removal_restoration_counts (env : LockEnv) (removed : List LockRecord)
    (groups : List (String × String)) (n : Nat) (recs : List LockRecord) :
    ((restore_scope_locks env removed).1 = .ok n → n ≤ removed.length) ∧
    ((∀ s, env.accountSet s = .ok ()) →
      (∀ r ∈ removed, pyStartsWith (env.lockCreate r.lockName r.rg) "Error:" = false) →
      (restore_scope_locks env removed).1 = .ok removed.length) ∧
    (check_and_remove_scope_locks env groups = .ok recs →
      ∀ r ∈ recs, pyStartsWith (env.lockDelete r.lockName r.rg) "Error:" = false) := by
  refine ⟨?_, ?_, ?_⟩
  · intro h
    have := restoreGo_le env removed none [] 0 n h
    omega
  · intro hsw hok
    have := restoreGo_count env hsw removed none [] 0 hok
    simpa using this
  · intro h
    exact checkAndRemoveGo_sound env groups none [] recs (by intro r hr; cases hr) h

/-- Witness for C7: one removed lock, all restoration commands succeed,
so exactly one lock is restored; and the scan of one resource group with
one CanNotDelete lock whose delete command succeeds yields exactly that
record. -/
theorem lock_removal_restoration_counts_witness :
    (restore_scope_locks
        ⟨fun _ => .ok (), fun _ => .ok [("L1", "CanNotDelete")], fun _ _ => "", fun _ _ => ""⟩
        [⟨"s1", "rg1", "L1"⟩]).1 = .ok 1 ∧
      pyStartsWith
        ((⟨fun _ => .ok (), fun _ => .ok [("L1", "CanNotDelete")], fun _ _ => "",
          fun _ _ => ""⟩ : LockEnv).lockDelete "L1" "rg1") "Error:" = false := by
  constructor
  · exact (lock_removal_restoration_counts
      ⟨fun _ => .ok (), fun _ => .ok [("L1", "CanNotDelete")], fun _ _ => "", fun _ _ => ""⟩
      [⟨"s1", "rg1", "L1"⟩] [("s1", "rg1")] 1 []).2.1 (fun s => rfl) (by decide)
  · exact ((lock_removal_restoration_counts
      ⟨fun _ => .ok (), fun _ => .ok [("L1", "CanNotDelete")], fun _ _ => "", fun _ _ => ""⟩
      [⟨"s1", "rg1", "L1"⟩] [("s1", "rg1")] 1 [⟨"s1", "rg1", "L1"⟩]).2.2 (by decide))
      ⟨"s1", "rg1", "L1"⟩ (by decide)

/-- C4 (amended): the lock-restoration step runs after the deletion
dispatch only when the destructive phase is not aborted; in that case,
provided every subscription switch succeeds, the trace of attempted
restorations is exactly the list of removed locks, each attempted once
and in order, whatever the lock-create results are (a failed create for
one record does not prevent the attempts for the rest).  An abort during
the deletion dispatch propagates before the restore call, which is not
inside any finally block in the source, so no restoration is attempted. -/
theorem restore_runs_on_normal_completion (lenv : LockEnv) (denv : DelEnv)
    (subs : List (String × String)) (pre : Aggregate) (valid : List String)
    (removed : List LockRecord) (hsw : ∀ s, lenv.accountSet s = .ok ())
    (hrem : check_and_remove_scope_locks lenv (get_resource_groups_from_snapshots valid) =
      .ok removed) :
    (deletePhaseCore lenv denv subs pre valid false).2 = removed := by
  simp only [deletePhaseCore, hrem, Bool.false_eq_true, if_false]
  have hatt := restoreGo_att lenv hsw removed none [] 0
  cases hres : (restore_scope_locks lenv removed).1 with
  | error e =>
    show (restore_scope_locks lenv removed).2 = removed
    unfold restore_scope_locks
    simpa using hatt
  | ok m =>
    show (restore_scope_locks lenv removed).2 = removed
    unfold restore_scope_locks
    simpa using hatt

/-- Counterexample for C4 as stated: with one lock removed and the
deletion phase aborted by a user interrupt, the phase result is the
propagated interrupt and the restoration trace is empty, although the
removal scan had recorded one lock; restoration is therefore not invoked
unconditionally. -/
theorem abort_skips_restoration :
    deletePhaseCore
        ⟨fun _ => .ok (), fun _ => .ok [("L1", "CanNotDelete")], fun _ _ => "", fun _ _ => ""⟩
        ⟨fun _ => .ok "", fun _ => .ok ""⟩ [("s1", "SubOne")] []
        ["/subscriptions/s1/resourceGroups/rg1/providers/Microsoft.Compute/snapshots/snapA"]
        true =
      (.error .interrupt, []) ∧
    check_and_remove_scope_locks
        ⟨fun _ => .ok (), fun _ => .ok [("L1", "CanNotDelete")], fun _ _ => "", fun _ _ => ""⟩
        (get_resource_groups_from_snapshots
          ["/subscriptions/s1/resourceGroups/rg1/providers/Microsoft.Compute/snapshots/snapA"]) =
      .ok [⟨"s1", "rg1", "L1"⟩] := by
  constructor
  · rfl
  · rfl

/-- Witness for C4 at a concrete uninterrupted run. -/
theorem restore_runs_on_normal_completion_witness :
    (deletePhaseCore
        ⟨fun _ => .ok (), fun _ => .ok [("L1", "CanNotDelete")], fun _ _ => "", fun _ _ => ""⟩
        ⟨fun _ => .ok "", fun _ => .ok ""⟩ [("s1", "SubOne")] []
        ["/subscriptions/s1/resourceGroups/rg1/providers/Microsoft.Compute/snapshots/snapA"]
        false).2 = [⟨"s1", "rg1", "L1"⟩] :=
  restore_runs_on_normal_completion
    ⟨fun _ => .ok (), fun _ => .ok [("L1", "CanNotDelete")], fun _ _ => "", fun _ _ => ""⟩
    ⟨fun _ => .ok "", fun _ => .ok ""⟩ [("s1", "SubOne")] []
    ["/subscriptions/s1/resourceGroups/rg1/providers/Microsoft.Compute/snapshots/snapA"]
    [⟨"s1", "rg1", "L1"⟩] (fun s => rfl) (by decide)

/-- C1 (amended): the delete-path merge keeps every tag bucket of the
deletion aggregate intact, and keeps a pre-validation bucket only when
its key and tag pair is absent from the deletion aggregate; a
pre-validation bucket sharing key and tag with a deletion bucket (which
the pipeline can produce only for the error tag under Unknown) is
overwritten by the deletion bucket, not unioned.  The deletion aggregate
has unique keys at both levels, as every Python dict does. -/
theorem merge_update_characterization (pre del : Aggregate) (hwf : WFAgg del)
    (k t : String) :
    bucketOf (mergeResults pre del) k t =
      if hasTag del k t then bucketOf del k t else bucketOf pre k t :=
  mergeResults_bucket del pre k t hwf

/-- Counterexample for C1 as stated: with snapshot A valid but failing
deletion with a raised fault and snapshot B raising during
pre-validation, both passes put an error bucket under the Unknown key;
after the merge of main.py lines 613-616 the pass-1 error bucket of
Unknown is gone, replaced by the pass-2 bucket, so the merge does not
preserve every tag bucket of both inputs. -/
theorem merge_overwrites_error_bucket :
    bucketOf
        (pre_validate_snapshots
          ⟨fun id => if id =
              "/subscriptions/s1/resourceGroups/rg1/providers/Microsoft.Compute/snapshots/snapA"
            then .ok "{}" else .error "boom", fun _ => .error "del-boom"⟩
          [("s1", "SubOne")]
          ["/subscriptions/s1/resourceGroups/rg1/providers/Microsoft.Compute/snapshots/snapA",
           "/subscriptions/s1/resourceGroups/rg1/providers/Microsoft.Compute/snapshots/snapB"]).2
        "Unknown" "error" =
      [Payload.err
        "/subscriptions/s1/resourceGroups/rg1/providers/Microsoft.Compute/snapshots/snapB"
        "boom"] ∧
    bucketOf
        (mergeResults
          (pre_validate_snapshots
            ⟨fun id => if id =
                "/subscriptions/s1/resourceGroups/rg1/providers/Microsoft.Compute/snapshots/snapA"
              then .ok "{}" else .error "boom", fun _ => .error "del-boom"⟩
            [("s1", "SubOne")]
            ["/subscriptions/s1/resourceGroups/rg1/providers/Microsoft.Compute/snapshots/snapA",
             "/subscriptions/s1/resourceGroups/rg1/providers/Microsoft.Compute/snapshots/snapB"]).2
          (delete_valid_snapshots
            ⟨fun id => if id =
                "/subscriptions/s1/resourceGroups/rg1/providers/Microsoft.Compute/snapshots/snapA"
              then .ok "{}" else .error "boom", fun _ => .error "del-boom"⟩
            [("s1", "SubOne")]
            (pre_validate_snapshots
              ⟨fun id => if id =
                  "/subscriptions/s1/resourceGroups/rg1/providers/Microsoft.Compute/snapshots/snapA"
                then .ok "{}" else .error "boom", fun _ => .error "del-boom"⟩
              [("s1", "SubOne")]
              ["/subscriptions/s1/resourceGroups/rg1/providers/Microsoft.Compute/snapshots/snapA",
               "/subscriptions/s1/resourceGroups/rg1/providers/Microsoft.Compute/snapshots/snapB"]).1))
        "Unknown" "error" =
      [Payload.err
        "/subscriptions/s1/resourceGroups/rg1/providers/Microsoft.Compute/snapshots/snapA"
        "del-boom"] := by
  constructor
  · rfl
  · rfl

/-- Witness for C1 at concrete aggregates with overlapping key and tag. -/
theorem merge_update_characterization_witness :
    bucketOf
        (mergeResults [("Unknown", [("error", [Payload.err "a" "x"])])]
          [("Unknown", [("error", [Payload.err "b" "y"])])])
        "Unknown" "error" =
      [Payload.err "b" "y"] := by
  have h := merge_update_characterization [("Unknown", [("error", [Payload.err "a" "x"])])]
    [("Unknown", [("error", [Payload.err "b" "y"])])] (by decide) "Unknown" "error"
  rw [h]
  decide

/-- C2 (amended): every input identifier produces exactly one outcome in
the pre-validation aggregate, whose total payload count over all keys
and tags therefore equals the input length.  The totals row printed by
the summary is a different quantity: over the merged aggregate it counts
only the valid, non-existent, deleted and failed buckets, so a valid
snapshot that is then deleted is counted twice and invalid or error
outcomes are not counted at all. -/
theorem pre_validation_outcome_total (env : DelEnv) (subs : List (String × String))
    (ids : List String) :
    aggTotal (pre_validate_snapshots env subs ids).2 = ids.length := by
  unfold pre_validate_snapshots pre_validate_dispatch
  rw [aggTotal_preValFold]
  simp [aggTotal, countOk, exceptOk]

/-- Counterexample for C2 as stated: a single valid snapshot that is
deleted successfully appears in both the valid and the deleted buckets
of the merged aggregate, so the summary totals row counts two outcomes
for one input identifier. -/
theorem summary_totals_ne_input_length :
    print_summary_totals
        (mergeResults
          (pre_validate_snapshots ⟨fun _ => .ok "", fun _ => .ok ""⟩ [("s1", "SubOne")]
            ["/subscriptions/s1/resourceGroups/rg1/providers/Microsoft.Compute/snapshots/snapA"]).2
          (delete_valid_snapshots ⟨fun _ => .ok "", fun _ => .ok ""⟩ [("s1", "SubOne")]
            (pre_validate_snapshots ⟨fun _ => .ok "", fun _ => .ok ""⟩ [("s1", "SubOne")]
              ["/subscriptions/s1/resourceGroups/rg1/providers/Microsoft.Compute/snapshots/snapA"]).1)) =
      2 ∧
    ["/subscriptions/s1/resourceGroups/rg1/providers/Microsoft.Compute/snapshots/snapA"].length =
      1 := by
  constructor
  · rfl
  · rfl

/-- C3 (amended): the deletion dispatcher catches a worker fault and
records an error payload carrying the originating identifier and the
fault text under the Unknown key, and never re-raises (the dispatch fold
is total).  The pre-validation dispatcher also catches worker faults and
never re-raises, but it records nothing for a faulting item: the fault
is only logged, so the aggregate holds exactly one outcome per
successful worker call and none for faulting ones. -/
theorem dispatcher_fault_conversion
    (w1 : String → Except String (Option String × String × Payload))
    (w2 : String → Except String Bool) (subs : List (String × String))
    (ids1 ids2 : List String) (id e : String) :
    (aggTotal (pre_validate_dispatch w1 ids1).2 = countOk w1 ids1) ∧
    (id ∈ ids2 → w2 id = .error e →
      Payload.err id e ∈ bucketOf (delete_valid_dispatch w2 subs ids2) "Unknown" "error") := by
  constructor
  · unfold pre_validate_dispatch
    rw [aggTotal_preValFold]
    simp [aggTotal]
  · intro hmem hw
    exact delFold_error_mem w2 subs ids2 [] id e hmem hw

/-- Counterexample for C3 as stated: a pre-validation worker fault on the
single item x leaves the aggregate completely empty; no error outcome
with the identifier and fault text is recorded anywhere, contrary to the
claim that both dispatchers convert faults into error outcomes. -/
theorem pre_validation_fault_dropped :
    pre_validate_dispatch (fun _ => Except.error "boom") ["x"] = ([], []) ∧
    bucketOf (pre_validate_dispatch (fun _ => Except.error "boom") ["x"]).2
        "Unknown" "error" = [] := by
  constructor
  · rfl
  · rfl

/-- Witness for C3: a deletion worker fault on item x is recorded under
Unknown with the identifier and fault text. -/
theorem dispatcher_fault_conversion_witness :
    Payload.err "x" "boom" ∈
      bucketOf (delete_valid_dispatch (fun _ => Except.error "boom") [] ["x"])
        "Unknown" "error" :=
  (dispatcher_fault_conversion (fun _ => Except.error "boom") (fun _ => Except.error "boom")
      [] [] ["x"] "x" "boom").2 (by decide) rfl
